import Mathlib

/-!
Verification of `src/python/pyspark/mllib/__init__.py`.

The module body performs two actions at import time:

1. A NumPy version guard (lines 25-27):
   `if numpy.version.version < '1.4': raise Exception("MLlib requires NumPy 1.4+")`
   Python compares the two `str` values lexicographically by code point.

2. Alias registration (lines 32-36):
   `from . import rand as random`
   `random.__name__ = 'random'`
   `random.RandomRDDs.__module__ = __name__ + '.random'`
   `sys.modules[__name__ + '.random'] = random`

We embed the module body as a pure state transformer `mllibInit` over an
explicit model of the process state (the `sys.modules` registry plus the
two mutated attribute labels), and separately formalise the notion of
"component-wise numeric version comparison" used by the specification
(`versionLt`, `groupVal`, `renderVersion`) so the spec's claims about
numeric ordering can be compared against the code's string comparison.
-/

/-- Python string comparison `a < b` on lists of characters: lexicographic
by code point, a strict prefix is smaller.  This embeds the `<` used in
`numpy.version.version < '1.4'`. -/
def pyStrLt : List Char → List Char → Bool
  | _, [] => false
  | [], _ :: _ => true
  | a :: as, b :: bs =>
    if a.toNat < b.toNat then true
    else if b.toNat < a.toNat then false
    else pyStrLt as bs

/-- The minimum supported NumPy version literal `'1.4'` from line 26. -/
def minVersionStr : String := "1.4"

/-- The error message of line 27. -/
def errorMessage : String := "MLlib requires NumPy 1.4+"

/-- The value of `__name__` while the module body of
`pyspark/mllib/__init__.py` runs. -/
def packageName : String := "pyspark.mllib"

/-- The public dotted path `__name__ + '.random'` written on lines 35-36. -/
def aliasKey : String := packageName ++ ".random"

/-- The internal dotted path of the `rand` submodule consulted by
`from . import rand as random` on line 33. -/
def randKey : String := packageName ++ ".rand"

/-- Module objects are identified by an abstract identity (Python object
identity); two registry entries alias each other iff they hold the same
identity. -/
abbrev ModuleId := Nat

/-- Lookup in the `sys.modules` registry, modelled as an association list
from dotted paths to module identities. -/
def lookupReg : List (String × ModuleId) → String → Option ModuleId
  | [], _ => none
  | (k, v) :: m, key => if k = key then some v else lookupReg m key

/-- Assignment `sys.modules[key] = v`: replace the value of an existing
key in place, otherwise append the new entry (Python dict semantics). -/
def insertReg : List (String × ModuleId) → String → ModuleId → List (String × ModuleId)
  | [], key, v => [(key, v)]
  | (k, w) :: m, key, v =>
    if k = key then (key, v) :: m else (k, w) :: insertReg m key v

/-- The process state mutated by the module body: the `sys.modules`
registry, the `__name__` attribute of the `rand` submodule object, and
the `__module__` attribute of the `RandomRDDs` class defined in it. -/
structure MllibState where
  modules : List (String × ModuleId)
  randNameAttr : String
  randomRDDsModuleAttr : String
deriving Repr, DecidableEq

/-- Embedding of the module body of `src/python/pyspark/mllib/__init__.py`.

Modelled from the spec: the file `rand.py` defining the internal `rand`
submodule is not under `src/`; the spec describes it as "an
already-loaded module object", so `from . import rand as random` is
modelled as a lookup of the internal dotted path in the process-wide
module registry, yielding the existing module object's identity (an
absent entry surfaces as an import error).

The returned pair is the process state after the body runs together with
the raised exception message, if any; on an exception the state component
is the state at the moment of the raise. -/
def mllibInit (numpyVersion : String) (s : MllibState) : MllibState × Option String :=
  if pyStrLt numpyVersion.data minVersionStr.data then
    (s, some errorMessage)
  else
    match lookupReg s.modules randKey with
    | some r => (⟨insertReg s.modules aliasKey r, "random", aliasKey⟩, none)
    | none => (s, some "ImportError")

/-- The state produced by a successful run of the module body starting
from `s`, with `r` the identity of the already-loaded `rand` submodule. -/
def initResult (s : MllibState) (r : ModuleId) : MllibState :=
  ⟨insertReg s.modules aliasKey r, "random", aliasKey⟩

/-- A concrete pre-initialization state: the `rand` submodule (identity 7)
is loaded under its internal dotted path, its labels still internal. -/
def loadedState : MllibState :=
  ⟨[("pyspark.mllib.rand", 7)], "rand", "pyspark.mllib.rand"⟩

/-- A concrete pre-initialization state in which the public alias path is
already bound to a different module object (identity 99). -/
def preAliasedState : MllibState :=
  ⟨[("pyspark.mllib.rand", 7), ("pyspark.mllib.random", 99)], "rand",
    "pyspark.mllib.rand"⟩

/-! ### Numeric version semantics (from the specification's words)

The spec speaks of "component-wise numeric (not lexicographic) comparison"
of dot-separated version components.  The following definitions formalise
that reading: a version string is the rendering of a list of non-empty
decimal digit groups, its numeric value is the list of the groups' values,
and numeric comparison is lexicographic on those numbers (Python tuple
comparison, a strict prefix being smaller). -/

/-- Decimal digit character (code points 48-57). -/
def isDigitCh (c : Char) : Bool := decide (48 ≤ c.toNat) && decide (c.toNat ≤ 57)

/-- A well-formed version component: a non-empty group of digits. -/
def wfGroup (g : List Char) : Bool := !g.isEmpty && g.all isDigitCh

/-- A well-formed version: every component well-formed. -/
def wfVersion (gs : List (List Char)) : Bool := gs.all wfGroup

/-- Accumulating decimal value of a digit group. -/
def groupValAux : List Char → Nat → Nat
  | [], a => a
  | c :: cs, a => groupValAux cs (a * 10 + (c.toNat - 48))

/-- Numeric value of one dot-separated version component. -/
def groupVal (g : List Char) : Nat := groupValAux g 0

/-- The numeric components of a version. -/
def versionNums (gs : List (List Char)) : List Nat := gs.map groupVal

/-- Component-wise numeric version comparison: lexicographic on the
numeric components, a strict prefix being smaller. -/
def versionLt : List Nat → List Nat → Bool
  | _, [] => false
  | [], _ :: _ => true
  | a :: as, b :: bs =>
    if a < b then true
    else if b < a then false
    else versionLt as bs

/-- Characters of the tail of a rendered version: a leading dot before
each further component. -/
def renderTail : List (List Char) → List Char
  | [] => []
  | g :: gs => '.' :: (g ++ renderTail gs)

/-- The version string spelled by a list of components, components
separated by dots. -/
def renderVersion : List (List Char) → List Char
  | [] => []
  | g :: gs => g ++ renderTail gs

/-! ### Registry lemmas -/

lemma lookupReg_insertReg_self (m : List (String × ModuleId)) (k : String) (v : ModuleId) :
    lookupReg (insertReg m k v) k = some v := by
  induction m with
  | nil => simp [insertReg, lookupReg]
  | cons p m ih =>
    obtain ⟨k', w⟩ := p
    by_cases h : k' = k
    · simp [insertReg, lookupReg, h]
    · simp [insertReg, lookupReg, h, ih]

lemma lookupReg_insertReg_ne (m : List (String × ModuleId)) (k key : String) (v : ModuleId)
    (h : key ≠ k) : lookupReg (insertReg m k v) key = lookupReg m key := by
  have h' : k ≠ key := Ne.symm h
  induction m with
  | nil => simp [insertReg, lookupReg, h']
  | cons p m ih =>
    obtain ⟨k', w⟩ := p
    by_cases hk : k' = k
    · subst hk
      simp [insertReg, lookupReg, h']
    · simp [insertReg, lookupReg, hk, ih]

lemma insertReg_idem (m : List (String × ModuleId)) (k : String) (v : ModuleId) :
    insertReg (insertReg m k v) k v = insertReg m k v := by
  induction m with
  | nil => simp [insertReg]
  | cons p m ih =>
    obtain ⟨k', w⟩ := p
    by_cases h : k' = k
    · simp [insertReg, h]
    · simp [insertReg, h, ih]

/-! ### Numeric-below implies string-below `'1.4'`

The code rejects by the string test `pyStrLt v "1.4"`.  Every well-formed
version whose numeric components are below `[1, 4]` is also below `'1.4'`
as a string, so the guard does fire on all numerically-low versions. -/

lemma groupValAux_le (ds : List Char) (a : Nat) : a ≤ groupValAux ds a := by
  induction ds generalizing a with
  | nil => simp [groupValAux]
  | cons c ds ih =>
    have h := ih (a * 10 + (c.toNat - 48))
    simp only [groupValAux]
    omega

/-- Head-digit bound: a digit group with numeric value below `n`
starts with a digit whose code point is below `48 + n`. -/
lemma groupVal_head_lt (d : Char) (ds : List Char) (n : Nat)
    (hd : 48 ≤ d.toNat) (hlt : groupVal (d :: ds) < n) :
    d.toNat < 48 + n := by
  cases ds with
  | nil =>
    simp only [groupVal, groupValAux] at hlt
    omega
  | cons e ds' =>
    simp only [groupVal, groupValAux] at hlt
    have h := groupValAux_le ds' ((0 * 10 + (d.toNat - 48)) * 10 + (e.toNat - 48))
    omega

lemma pyStrLt_head_lt (a b : Char) (as bs : List Char) (h : a.toNat < b.toNat) :
    pyStrLt (a :: as) (b :: bs) = true := by
  simp [pyStrLt, h]

lemma pyStrLt_head_eq (a b : Char) (as bs : List Char) (h : a.toNat = b.toNat) :
    pyStrLt (a :: as) (b :: bs) = pyStrLt as bs := by
  simp [pyStrLt, h]

/-- A digit group with numeric value exactly 1 whose head code point is at
least 49 must be the single digit `'1'` (code point 49). -/
lemma groupVal_one_head (d : Char) (ds : List Char)
    (h1 : groupVal (d :: ds) = 1) (hge : 49 ≤ d.toNat) :
    d.toNat = 49 ∧ ds = [] := by
  cases ds with
  | nil =>
    simp only [groupVal, groupValAux] at h1
    exact ⟨by omega, rfl⟩
  | cons e ds' =>
    simp only [groupVal, groupValAux] at h1
    have h := groupValAux_le ds' ((0 * 10 + (d.toNat - 48)) * 10 + (e.toNat - 48))
    omega

/-- Unpacking well-formedness of a cons version. -/
lemma wfVersion_cons (g : List Char) (gs : List (List Char))
    (h : wfVersion (g :: gs) = true) :
    wfGroup g = true ∧ wfVersion gs = true := by
  simpa [wfVersion, List.all_cons, Bool.and_eq_true] using h

/-- A well-formed group is a cons of a digit and digits. -/
lemma wfGroup_dest (g : List Char) (h : wfGroup g = true) :
    ∃ d ds, g = d :: ds ∧ 48 ≤ d.toNat ∧ d.toNat ≤ 57 := by
  cases g with
  | nil => simp [wfGroup] at h
  | cons d ds =>
    refine ⟨d, ds, rfl, ?_, ?_⟩ <;>
    · simp [wfGroup, List.all_cons, isDigitCh, Bool.and_eq_true] at h
      omega

/-- Unpacking `versionLt (v :: vs) [n]`: the head must be numerically
below `n` (a longer list never compares below its strict prefix). -/
lemma versionLt_cons_single (v : Nat) (vs : List Nat) (n : Nat)
    (h : versionLt (v :: vs) [n] = true) : v < n := by
  by_cases h1 : v < n
  · exact h1
  · by_cases h2 : n < v
    · simp [versionLt, h1, h2] at h
    · simp [versionLt, h1, h2] at h

/-- Unpacking `versionLt (v :: vs) [1, 4]`. -/
lemma versionLt_cons_one_four (v : Nat) (vs : List Nat)
    (h : versionLt (v :: vs) [1, 4] = true) :
    v < 1 ∨ (v = 1 ∧ versionLt vs [4] = true) := by
  by_cases h1 : v < 1
  · exact Or.inl h1
  · by_cases h2 : 1 < v
    · simp [versionLt, h1, h2] at h
    · refine Or.inr ⟨by omega, ?_⟩
      simpa [versionLt, h1, h2] using h

/-- Core comparison lemma: every well-formed version whose numeric
components are componentwise below `[1, 4]` is also below the string
`'1.4'` in Python's lexicographic string order, so the guard on line 26
fires on it. -/
lemma numeric_below_strLt (gs : List (List Char))
    (hwf : wfVersion gs = true)
    (hlt : versionLt (versionNums gs) [1, 4] = true) :
    pyStrLt (renderVersion gs) ['1', '.', '4'] = true := by
  cases gs with
  | nil => decide
  | cons g1 rest =>
    obtain ⟨hwf1, hwfrest⟩ := wfVersion_cons g1 rest hwf
    obtain ⟨d, ds, rfl, hd48, hd57⟩ := wfGroup_dest g1 hwf1
    simp only [versionNums, List.map_cons] at hlt
    have hrender :
        renderVersion ((d :: ds) :: rest) = d :: (ds ++ renderTail rest) := by
      simp [renderVersion]
    rw [hrender]
    rcases versionLt_cons_one_four _ _ hlt with hv0 | ⟨hv1, hrest4⟩
    · -- first component is numerically 0: its head digit is below '1'
      have hhead : d.toNat < 49 := by
        have := groupVal_head_lt d ds 1 hd48 hv0
        omega
      exact pyStrLt_head_lt d '1' _ _ (by simpa using hhead)
    · -- first component is numerically 1
      by_cases hd49lt : d.toNat < 49
      · exact pyStrLt_head_lt d '1' _ _ (by simpa using hd49lt)
      · obtain ⟨hd49, hdsnil⟩ := groupVal_one_head d ds hv1 (by omega)
        subst hdsnil
        rw [pyStrLt_head_eq d '1' _ _ (by simpa using hd49)]
        simp only [List.nil_append]
        cases rest with
        | nil => decide
        | cons g2 rest2 =>
          obtain ⟨hwf2, _⟩ := wfVersion_cons g2 rest2 hwfrest
          obtain ⟨e, es, rfl, he48, he57⟩ := wfGroup_dest g2 hwf2
          have hg2lt : groupVal (e :: es) < 4 :=
            versionLt_cons_single _ _ 4 hrest4
          have hehead : e.toNat < 52 := by
            have := groupVal_head_lt e es 4 he48 hg2lt
            omega
          have htail :
              renderTail ((e :: es) :: rest2) =
                '.' :: e :: (es ++ renderTail rest2) := by
            simp [renderTail]
          rw [htail, pyStrLt_head_eq '.' '.' _ _ rfl]
          exact pyStrLt_head_lt e '4' _ _ (by simpa using hehead)

/-! ### Characterising the two paths through the module body -/

/-- When the string guard fires, the body raises before touching any
state. -/
lemma mllibInit_guard_fail (v : String) (s : MllibState)
    (h : pyStrLt v.data minVersionStr.data = true) :
    mllibInit v s = (s, some errorMessage) := by
  simp [mllibInit, h]

/-- When the guard passes and the `rand` submodule is loaded, the body
completes without error, producing `initResult`. -/
lemma mllibInit_success (v : String) (s : MllibState) (r : ModuleId)
    (hguard : pyStrLt v.data minVersionStr.data = false)
    (hrand : lookupReg s.modules randKey = some r) :
    mllibInit v s = (initResult s r, none) := by
  simp [mllibInit, initResult, hguard, hrand]

lemma randKey_ne_aliasKey : randKey ≠ aliasKey := by decide

/-- The alias entry of the post-state holds the `rand` module object. -/
lemma initResult_aliasKey (s : MllibState) (r : ModuleId) :
    lookupReg (initResult s r).modules aliasKey = some r := by
  show lookupReg (insertReg s.modules aliasKey r) aliasKey = some r
  exact lookupReg_insertReg_self _ _ _

/-- The internal entry of the post-state is untouched. -/
lemma initResult_randKey (s : MllibState) (r : ModuleId)
    (hrand : lookupReg s.modules randKey = some r) :
    lookupReg (initResult s r).modules randKey = some r := by
  show lookupReg (insertReg s.modules aliasKey r) randKey = some r
  rw [lookupReg_insertReg_ne _ _ _ _ randKey_ne_aliasKey]
  exact hrand

/-! ### Claims -/

/-- C1: the claim says the guard's accept/reject decision agrees with
component-wise numeric ordering of the dot-separated components.  It does
not: the code compares the raw strings lexicographically, and on the
version `1.10.0` — numerically above the minimum `[1, 4]`, so the guard
should accept — the string test `'1.10.0' < '1.4'` is true and the body
raises.  This theorem evaluates the embedded body at that input. -/
theorem spark_version_guard_lexicographic_disagrees :
    versionLt [1, 4] (versionNums [['1'], ['1', '0'], ['0']]) = true ∧
    String.mk (renderVersion [['1'], ['1', '0'], ['0']]) = "1.10.0" ∧
    pyStrLt "1.10.0".data minVersionStr.data = true ∧
    mllibInit "1.10.0" loadedState = (loadedState, some errorMessage) := by
  refine ⟨by decide, by decide, by decide, ?_⟩
  decide

/-- C2: the claim says every version numerically at or above the minimum
initializes without error, naming `1.10.0`-like strings explicitly.  The
code raises on `1.13.1`, whose numeric components `[1, 13, 1]` are not
below `[1, 4]`: initialization fails with the version error rather than
succeeding. -/
theorem spark_init_rejects_supported_version :
    versionLt (versionNums [['1'], ['1', '3'], ['1']]) [1, 4] = false ∧
    String.mk (renderVersion [['1'], ['1', '3'], ['1']]) = "1.13.1" ∧
    mllibInit "1.13.1" loadedState = (loadedState, some errorMessage) := by
  refine ⟨by decide, by decide, ?_⟩
  decide

/-- C3: every well-formed version string whose numeric components are
below the minimum `[1, 4]` makes initialization raise the error
`MLlib requires NumPy 1.4+`, with the process state exactly as it was —
so in particular before any alias registration or renaming. -/
theorem spark_numeric_below_min_raises (gs : List (List Char)) (s : MllibState)
    (hwf : wfVersion gs = true)
    (hlt : versionLt (versionNums gs) [1, 4] = true) :
    mllibInit (String.mk (renderVersion gs)) s = (s, some errorMessage) := by
  have h := numeric_below_strLt gs hwf hlt
  apply mllibInit_guard_fail
  exact h

/-- Witness for C3 at the spec's own example `1.3.0`. -/
theorem spark_numeric_below_min_raises_witness :
    mllibInit (String.mk (renderVersion [['1'], ['3'], ['0']])) loadedState =
      (loadedState, some errorMessage) :=
  spark_numeric_below_min_raises [['1'], ['3'], ['0']] loadedState
    (by decide) (by decide)

/-- C4: after a successful run, the public alias path resolves in the
module registry to the very module identity registered under the internal
`rand` path — the same object, not a copy. -/
theorem spark_alias_lookup_identity (v : String) (s : MllibState) (r : ModuleId)
    (hguard : pyStrLt v.data minVersionStr.data = false)
    (hrand : lookupReg s.modules randKey = some r) :
    (mllibInit v s).2 = none ∧
    lookupReg (mllibInit v s).1.modules aliasKey = some r ∧
    lookupReg (mllibInit v s).1.modules aliasKey = lookupReg s.modules randKey := by
  rw [mllibInit_success v s r hguard hrand]
  refine ⟨rfl, initResult_aliasKey s r, ?_⟩
  rw [hrand]
  exact initResult_aliasKey s r

/-- Witness for C4: version `2.0.0`, `rand` loaded with identity 7. -/
theorem spark_alias_lookup_identity_witness :
    (mllibInit "2.0.0" loadedState).2 = none ∧
    lookupReg (mllibInit "2.0.0" loadedState).1.modules aliasKey = some 7 ∧
    lookupReg (mllibInit "2.0.0" loadedState).1.modules aliasKey =
      lookupReg loadedState.modules randKey :=
  spark_alias_lookup_identity "2.0.0" loadedState 7 (by decide) (by decide)

/-- C5: when the string guard fires, the raise happens before any write:
the whole state — in particular the module registry and its entry at the
public alias path — is exactly the pre-state. -/
theorem spark_guard_fail_atomic (v : String) (s : MllibState)
    (h : pyStrLt v.data minVersionStr.data = true) :
    (mllibInit v s).1 = s ∧
    (mllibInit v s).1.modules = s.modules ∧
    lookupReg (mllibInit v s).1.modules aliasKey = lookupReg s.modules aliasKey := by
  rw [mllibInit_guard_fail v s h]
  exact ⟨rfl, rfl, rfl⟩

/-- Witness for C5 at version `1.3.9`. -/
theorem spark_guard_fail_atomic_witness :
    (mllibInit "1.3.9" loadedState).1 = loadedState ∧
    (mllibInit "1.3.9" loadedState).1.modules = loadedState.modules ∧
    lookupReg (mllibInit "1.3.9" loadedState).1.modules aliasKey =
      lookupReg loadedState.modules aliasKey :=
  spark_guard_fail_atomic "1.3.9" loadedState (by decide)

/-- C6: a successful run sets the module's self-reported name label to
`random` and the `RandomRDDs` class's module label to the public dotted
path `pyspark.mllib.random`. -/
theorem spark_init_renames_labels (v : String) (s : MllibState) (r : ModuleId)
    (hguard : pyStrLt v.data minVersionStr.data = false)
    (hrand : lookupReg s.modules randKey = some r) :
    (mllibInit v s).1.randNameAttr = "random" ∧
    (mllibInit v s).1.randomRDDsModuleAttr = "pyspark.mllib.random" := by
  rw [mllibInit_success v s r hguard hrand]
  refine ⟨rfl, ?_⟩
  show aliasKey = "pyspark.mllib.random"
  decide

/-- Witness for C6. -/
theorem spark_init_renames_labels_witness :
    (mllibInit "2.0.0" loadedState).1.randNameAttr = "random" ∧
    (mllibInit "2.0.0" loadedState).1.randomRDDsModuleAttr =
      "pyspark.mllib.random" :=
  spark_init_renames_labels "2.0.0" loadedState 7 (by decide) (by decide)

/-- C7: running the body a second time from the state produced by the
first successful run changes nothing: the second run succeeds and returns
that state unchanged — the alias mapping and both labels are the same as
after one run. -/
theorem spark_init_idempotent (v : String) (s : MllibState) (r : ModuleId)
    (hguard : pyStrLt v.data minVersionStr.data = false)
    (hrand : lookupReg s.modules randKey = some r) :
    mllibInit v (mllibInit v s).1 = ((mllibInit v s).1, none) := by
  rw [mllibInit_success v s r hguard hrand]
  show mllibInit v (initResult s r) = (initResult s r, none)
  rw [mllibInit_success v (initResult s r) r hguard (initResult_randKey s r hrand)]
  have hidem : initResult (initResult s r) r = initResult s r := by
    show (⟨insertReg (insertReg s.modules aliasKey r) aliasKey r, "random", aliasKey⟩ : MllibState) =
      ⟨insertReg s.modules aliasKey r, "random", aliasKey⟩
    rw [insertReg_idem]
  rw [hidem]

/-- Witness for C7. -/
theorem spark_init_idempotent_witness :
    mllibInit "2.0.0" (mllibInit "2.0.0" loadedState).1 =
      ((mllibInit "2.0.0" loadedState).1, none) :=
  spark_init_idempotent "2.0.0" loadedState 7 (by decide) (by decide)

/-- C8: after a successful run the alias entry and the internal entry
resolve to the same module object, and the invariant is preserved by
running the body again from the produced state. -/
theorem spark_alias_invariant_preserved (v : String) (s : MllibState) (r : ModuleId)
    (hguard : pyStrLt v.data minVersionStr.data = false)
    (hrand : lookupReg s.modules randKey = some r) :
    lookupReg (mllibInit v s).1.modules aliasKey =
      lookupReg (mllibInit v s).1.modules randKey ∧
    lookupReg (mllibInit v (mllibInit v s).1).1.modules aliasKey =
      lookupReg (mllibInit v (mllibInit v s).1).1.modules randKey := by
  rw [mllibInit_success v s r hguard hrand]
  constructor
  · show lookupReg (initResult s r).modules aliasKey =
      lookupReg (initResult s r).modules randKey
    rw [initResult_aliasKey, initResult_randKey s r hrand]
  · show lookupReg (mllibInit v (initResult s r)).1.modules aliasKey =
      lookupReg (mllibInit v (initResult s r)).1.modules randKey
    rw [mllibInit_success v (initResult s r) r hguard (initResult_randKey s r hrand)]
    show lookupReg (initResult (initResult s r) r).modules aliasKey =
      lookupReg (initResult (initResult s r) r).modules randKey
    rw [initResult_aliasKey,
      initResult_randKey (initResult s r) r (initResult_randKey s r hrand)]

/-- Witness for C8. -/
theorem spark_alias_invariant_preserved_witness :
    lookupReg (mllibInit "2.0.0" loadedState).1.modules aliasKey =
      lookupReg (mllibInit "2.0.0" loadedState).1.modules randKey ∧
    lookupReg (mllibInit "2.0.0" (mllibInit "2.0.0" loadedState).1).1.modules aliasKey =
      lookupReg (mllibInit "2.0.0" (mllibInit "2.0.0" loadedState).1).1.modules randKey :=
  spark_alias_invariant_preserved "2.0.0" loadedState 7 (by decide) (by decide)

/-- C9: a successful run writes exactly the public alias key: every other
registry key — the internal `rand` entry included — resolves after the
run to exactly what it resolved to before. -/
theorem spark_alias_frame_preserving (v : String) (s : MllibState) (r : ModuleId)
    (k : String)
    (hguard : pyStrLt v.data minVersionStr.data = false)
    (hrand : lookupReg s.modules randKey = some r)
    (hk : k ≠ aliasKey) :
    lookupReg (mllibInit v s).1.modules k = lookupReg s.modules k := by
  rw [mllibInit_success v s r hguard hrand]
  show lookupReg (insertReg s.modules aliasKey r) k = lookupReg s.modules k
  exact lookupReg_insertReg_ne _ _ _ _ hk

/-- Witness for C9 at the internal `rand` key. -/
theorem spark_alias_frame_preserving_witness :
    lookupReg (mllibInit "2.0.0" loadedState).1.modules "pyspark.mllib.rand" =
      lookupReg loadedState.modules "pyspark.mllib.rand" :=
  spark_alias_frame_preserving "2.0.0" loadedState 7 "pyspark.mllib.rand"
    (by decide) (by decide) (by decide)

/-- C10: the registry write is an unconditional overwrite: even when the
public alias path is already bound to some object `q`, a successful run
rebinds it to the `rand` module object `r` and raises nothing. -/
theorem spark_alias_overwrites (v : String) (s : MllibState) (r q : ModuleId)
    (hguard : pyStrLt v.data minVersionStr.data = false)
    (hrand : lookupReg s.modules randKey = some r)
    (_hprev : lookupReg s.modules aliasKey = some q) :
    (mllibInit v s).2 = none ∧
    lookupReg (mllibInit v s).1.modules aliasKey = some r := by
  rw [mllibInit_success v s r hguard hrand]
  exact ⟨rfl, initResult_aliasKey s r⟩

/-- Witness for C10: the alias path starts bound to identity 99 and ends
bound to the `rand` module's identity 7. -/
theorem spark_alias_overwrites_witness :
    (mllibInit "2.0.0" preAliasedState).2 = none ∧
    lookupReg (mllibInit "2.0.0" preAliasedState).1.modules aliasKey = some 7 :=
  spark_alias_overwrites "2.0.0" preAliasedState 7 99
    (by decide) (by decide) (by decide)
